import Mathlib

/-!
# Verification of the Cycle1_Unicellular foraging simulation

Shallow embedding of the grid-variant agent logic (`agents.py`) and the
continuous-variant model bookkeeping (`models.py`) of the unicellular
foraging simulation, together with proofs about the embedded functions.

Conventions:
* grid coordinates are pairs of integers `ℤ × ℤ`;
* Python float arithmetic in the decision policy is embedded over `ℚ`
  (the claims checked there concern only signs and zero tests, which the
  concrete float computations in the counterexamples perform exactly);
* the environment (`mesa` grid) is a record of the torus flag and extent;
* Python's `%` on a positive modulus agrees with `Int.emod`, which is used
  for torus wrapping.
-/

namespace Unicellular

/-- The spatial environment: torus flag and extent, as read from
`self.model.space` by the agent code. -/
structure Env where
  torus : Bool
  width : ℤ
  height : ℤ

/-- `UnicellularAgent.cell_distance` (agents.py lines 99-110): Chebyshev
distance for the Moore grid; in torus mode each axis difference is first
replaced by `min(d, extent - d)`. -/
def cell_distance (env : Env) (my other : ℤ × ℤ) : ℤ :=
  let dx := |my.1 - other.1|
  let dy := |my.2 - other.2|
  let dx := if env.torus then min dx (env.width - dx) else dx
  let dy := if env.torus then min dy (env.height - dy) else dy
  max dx dy

/-- The per-axis wrapped difference `min(d, extent - d)` applied by
`cell_distance` in torus mode. -/
def wrapAxis (extent d : ℤ) : ℤ := min d (extent - d)

/-- Grid-variant `Resource` (agents.py lines 235-256): a depletable amount
plus the remembered initial amount. -/
structure Resource where
  amount : ℤ
  initial_amount : ℤ
deriving DecidableEq, Repr

/-- `Resource.is_depleted` (agents.py line 255, models.py line 145). -/
def Resource.is_depleted (r : Resource) : Bool := r.amount ≤ 0

/-- `Resource.collect` (agents.py lines 243-253, models.py lines 137-143,
identical arithmetic): if the amount is positive, hand out
`min(requested, amount)` and subtract it, otherwise hand out 0.  Returns the
updated resource and the collected quantity.  (The grid variant additionally
removes the resource object once `amount ≤ 0`; depletion is observable here
through `is_depleted`.) -/
def Resource.collect (r : Resource) (amount : ℤ) : Resource × ℤ :=
  if r.amount > 0 then
    let collected := min amount r.amount
    ({ r with amount := r.amount - collected }, collected)
  else (r, 0)

/-- Grid-variant `Hazard` (agents.py lines 259-265): fixed position, damage
and radius (integers; the class defaults are `damage=10, radius=2`). -/
structure Hazard where
  pos : ℤ × ℤ
  damage : ℤ
  radius : ℤ
deriving DecidableEq, Repr

/-- The eight compass offsets passed to `random.choice` in
`UnicellularAgent.__init__` (lines 29-32) and in the random-walk tier
(lines 151-154). -/
def compassDirections : List (ℤ × ℤ) :=
  [(0,1), (0,-1), (1,0), (-1,0), (1,1), (1,-1), (-1,1), (-1,-1)]

/-- Index into the eight compass offsets (outcome of a `random.choice`). -/
def compassDir (k : Fin 8) : ℤ × ℤ := compassDirections.get ⟨k.1, k.2⟩

/-- `int(np.sign ·)` on a rational weight. -/
def qsign (q : ℚ) : ℤ := if 0 < q then 1 else if q < 0 then -1 else 0

/-- `UnicellularAgent.get_direction_to` (agents.py lines 158-171): per-axis
sign of the coordinate difference, after replacing each axis difference by
the shorter wrapped difference in torus mode (`|d| > extent / 2` is the exact
integer test `2 * |d| > extent`). -/
def get_direction_to (env : Env) (my target : ℤ × ℤ) : ℤ × ℤ :=
  let dx := target.1 - my.1
  let dy := target.2 - my.2
  let dx := if env.torus ∧ 2 * |dx| > env.width then -dx.sign * (env.width - |dx|) else dx
  let dy := if env.torus ∧ 2 * |dy| > env.height then -dy.sign * (env.height - |dy|) else dy
  (dx.sign, dy.sign)

/-- `UnicellularAgent.get_direction_away` (agents.py lines 173-176). -/
def get_direction_away (env : Env) (my target : ℤ × ℤ) : ℤ × ℤ :=
  let toward := get_direction_to env my target
  (-toward.1, -toward.2)

/-- A sensed resource as produced by `sense_resources` (agents.py lines
60-76): position of the resource cell and its Chebyshev distance. -/
structure SensedResource where
  rpos : ℤ × ℤ
  distance : ℤ
deriving DecidableEq, Repr

/-- A sensed hazard as produced by `sense_hazards` (agents.py lines 78-97):
the hazard and its Chebyshev distance. -/
structure SensedHazard where
  hazard : Hazard
  distance : ℤ
deriving DecidableEq, Repr

/-- The weighted away-vector accumulated by the hazard-avoidance tier of
`decide_movement` (agents.py lines 121-131): for each sensed hazard, the
direction away from it weighted by `1 / (max(0.1, distance - radius) + 0.1)`. -/
def hazardWeightedSum (env : Env) (my : ℤ × ℤ) (hazards : List SensedHazard) : ℚ × ℚ :=
  hazards.foldl
    (fun acc info =>
      let away := get_direction_away env my info.hazard.pos
      let eff : ℚ := max (1/10) ((info.distance : ℚ) - (info.hazard.radius : ℚ))
      let weight : ℚ := 1 / (eff + 1/10)
      (acc.1 + (away.1 : ℚ) * weight, acc.2 + (away.2 : ℚ) * weight))
    (0, 0)

/-- The weighted toward-vector accumulated by the resource-attraction tier of
`decide_movement` (agents.py lines 136-145): direction toward each sensed
resource weighted by `1 / (distance + 1)`. -/
def resourceWeightedSum (env : Env) (my : ℤ × ℤ) (resources : List SensedResource) : ℚ × ℚ :=
  resources.foldl
    (fun acc info =>
      let toward := get_direction_to env my info.rpos
      let weight : ℚ := 1 / ((info.distance : ℚ) + 1)
      (acc.1 + (toward.1 : ℚ) * weight, acc.2 + (toward.2 : ℚ) * weight))
    (0, 0)

/-- `UnicellularAgent.decide_movement` (agents.py lines 114-156).
Priority: hazards, then resources, then random walk.  A tier returns only
when its weighted vector is nonzero, in which case the per-axis signs are
returned.  The random-walk tier consults the (module-level, unseeded)
`random` generator: `walk = some k` embeds the 20% case where a fresh
direction `compassDir k` is chosen, `walk = none` the 80% case where the
previous heading `dir` is kept. -/
def decide_movement (env : Env) (my : ℤ × ℤ) (resources : List SensedResource)
    (hazards : List SensedHazard) (walk : Option (Fin 8)) (dir : ℤ × ℤ) : ℤ × ℤ :=
  let hw := hazardWeightedSum env my hazards
  if hazards ≠ [] ∧ (hw.1 ≠ 0 ∨ hw.2 ≠ 0) then
    (qsign hw.1, qsign hw.2)
  else
    let rw := resourceWeightedSum env my resources
    if resources ≠ [] ∧ (rw.1 ≠ 0 ∨ rw.2 ≠ 0) then
      (qsign rw.1, qsign rw.2)
    else
      match walk with
      | some k => compassDir k
      | none => dir

/-- The Moore-grid connection of a cell in a given offset direction, as built
by mesa's orthogonal Moore grid and queried by `self.cell.connections.get`
(agents.py line 185): in torus mode every direction wraps modulo the extent;
in a bounded grid a step past the edge has no connection. -/
def connection (env : Env) (c d : ℤ × ℤ) : Option (ℤ × ℤ) :=
  if env.torus then some ((c.1 + d.1) % env.width, (c.2 + d.2) % env.height)
  else
    let n := (c.1 + d.1, c.2 + d.2)
    if 0 ≤ n.1 ∧ n.1 < env.width ∧ 0 ≤ n.2 ∧ n.2 < env.height then some n else none

/-- `UnicellularAgent.move` (agents.py lines 180-201), returning the new
coordinate.  With `movement_speed == 1` the agent follows the grid
connection if it exists (staying put otherwise); with other speeds the
offset is scaled by the speed and then wrapped (torus) or clamped to
`[0, width-1] × [0, height-1]` (bounded). -/
def move (env : Env) (pos : ℤ × ℤ) (movement_speed : ℤ) (dir : ℤ × ℤ) : ℤ × ℤ :=
  if movement_speed = 1 then
    match connection env pos dir with
    | some c => c
    | none => pos
  else
    let new_x := pos.1 + dir.1 * movement_speed
    let new_y := pos.2 + dir.2 * movement_speed
    if env.torus then (new_x % env.width, new_y % env.height)
    else (max 0 (min (env.width - 1) new_x), max 0 (min (env.height - 1) new_y))

/-- A coordinate lies inside the grid extent `[0, width) × [0, height)`. -/
def inGrid (env : Env) (p : ℤ × ℤ) : Prop :=
  0 ≤ p.1 ∧ p.1 < env.width ∧ 0 ≤ p.2 ∧ p.2 < env.height

instance (env : Env) (p : ℤ × ℤ) : Decidable (inGrid env p) := by
  unfold inGrid; infer_instance

/-- `UnicellularAgent.collect_resources_at_current_cell` (agents.py lines
205-213): walk over the resources present in the agent's current cell,
collect `amount=5` from each undepleted one, and add each positive take to
both energy and `resources_collected`.  Returns the updated resource list,
energy, and cumulative counter. -/
def collect_resources (cellResources : List Resource) (energy resources_collected : ℤ) :
    List Resource × ℤ × ℤ :=
  match cellResources with
  | [] => ([], energy, resources_collected)
  | r :: rest =>
    if ¬ r.is_depleted then
      let rc := r.collect 5
      let energy2 := if rc.2 > 0 then energy + rc.2 else energy
      let collected2 := if rc.2 > 0 then resources_collected + rc.2 else resources_collected
      let tail := collect_resources rest energy2 collected2
      (rc.1 :: tail.1, tail.2)
    else
      let tail := collect_resources rest energy resources_collected
      (r :: tail.1, tail.2)

/-- `UnicellularAgent.check_hazards_at_current_position` (agents.py lines
215-230): walk over the hazards found in the radius-5 neighborhood of the
new position; every hazard whose radius covers the position subtracts its
damage; the instant energy drops to `≤ 0` the agent is removed and the loop
returns early.  Returns the energy and whether the agent was removed. -/
def check_hazards (env : Env) (pos : ℤ × ℤ) (hazards : List Hazard) (energy : ℤ) :
    ℤ × Bool :=
  match hazards with
  | [] => (energy, false)
  | h :: rest =>
    if cell_distance env pos h.pos ≤ h.radius then
      let e := energy - h.damage
      if e ≤ 0 then (e, true)
      else check_hazards env pos rest e
    else check_hazards env pos rest energy

/-- Result of the interaction-and-update phase of one step: resources left in
the cell, final energy, cumulative collection counter, and whether the agent
was removed. -/
structure StepOutcome where
  cellResources : List Resource
  energy : ℤ
  resources_collected : ℤ
  removed : Bool
deriving DecidableEq, Repr

/-- Phases 4 and 5 of `UnicellularAgent.step` (agents.py lines 48-56), run at
the agent's post-move position: collect from the current cell, take hazard
damage (with early removal), then pay the tick cost of 1 energy and remove
the agent if energy is `≤ 0`.  An agent already removed by the hazard loop
still executes the final decrement (Python continues after the inner
`remove`; mesa's `remove` is idempotent). -/
def interact_update (env : Env) (pos : ℤ × ℤ) (cellResources : List Resource)
    (hazards : List Hazard) (energy resources_collected : ℤ) : StepOutcome :=
  let c := collect_resources cellResources energy resources_collected
  let hz := check_hazards env pos hazards c.2.1
  let energyFinal := hz.1 - 1
  { cellResources := c.1
    energy := energyFinal
    resources_collected := c.2.2
    removed := hz.2 || decide (energyFinal ≤ 0) }

/-- Total amount one pass of `collect_resources` takes from a cell:
`min 5 amount` from each undepleted resource. -/
def collectSum (cellResources : List Resource) : ℤ :=
  (cellResources.map (fun r => if r.amount > 0 then min 5 r.amount else 0)).sum

/-- Total damage of all hazards whose radius covers the position. -/
def hazardSum (env : Env) (pos : ℤ × ℤ) (hazards : List Hazard) : ℤ :=
  (hazards.map (fun h => if cell_distance env pos h.pos ≤ h.radius then h.damage else 0)).sum

/-! ## Single-agent, single-resource, no-hazard world

A closed instance of the full `UnicellularAgent.step` pipeline (sense →
decide → move → interact → update, agents.py lines 36-56) for the scenario
of one agent and one fixed resource on a torus grid with no hazards.  The
random-walk tier's draw from the (global) generator is supplied per tick as
an `Option (Fin 8)` (`some k` = the 20% reroll chose `compassDir k`,
`none` = the 80% keep-heading case); ticks whose decision returns at the
hazard or resource tier never consult it, matching the code. -/

/-- State of the one-agent-one-resource world. -/
structure SimState where
  pos : ℤ × ℤ
  dir : ℤ × ℤ
  energy : ℤ
  resources_collected : ℤ
  resource : Resource
  resourcePos : ℤ × ℤ
  removed : Bool
deriving DecidableEq, Repr

/-- `sense_resources` (agents.py lines 60-76) in this world: the resource is
detected iff it is undepleted and its cell lies in the Moore neighborhood of
radius `sensing_radius` (Chebyshev distance, torus-aware). -/
def senseResource (env : Env) (sensing_radius : ℤ) (s : SimState) : List SensedResource :=
  if ¬ s.resource.is_depleted ∧ cell_distance env s.pos s.resourcePos ≤ sensing_radius then
    [⟨s.resourcePos, cell_distance env s.pos s.resourcePos⟩]
  else []

/-- One full `UnicellularAgent.step` (agents.py lines 36-56) in this world:
sense, decide, move, collect at the new cell, hazard check (no hazards
exist), tick cost, removal check.  A removed agent is no longer stepped by
the scheduler. -/
def tick (env : Env) (sensing_radius movement_speed : ℤ) (walk : Option (Fin 8))
    (s : SimState) : SimState :=
  if s.removed then s else
  let sensedR := senseResource env sensing_radius s
  let direction := decide_movement env s.pos sensedR [] walk s.dir
  let newPos := move env s.pos movement_speed direction
  let cellRs := if newPos = s.resourcePos then [s.resource] else []
  let c := collect_resources cellRs s.energy s.resources_collected
  let resource2 := if newPos = s.resourcePos then c.1.headD s.resource else s.resource
  let hz := check_hazards env newPos [] c.2.1
  let energyFinal := hz.1 - 1
  { pos := newPos
    dir := direction
    energy := energyFinal
    resources_collected := c.2.2
    resource := resource2
    resourcePos := s.resourcePos
    removed := hz.2 || decide (energyFinal ≤ 0) }

/-- Iterate `tick` over a list of per-tick random-walk draws. -/
def runTicks (env : Env) (sensing_radius movement_speed : ℤ)
    (walks : List (Option (Fin 8))) (s : SimState) : SimState :=
  match walks with
  | [] => s
  | w :: ws => runTicks env sensing_radius movement_speed ws (tick env sensing_radius movement_speed w s)

/-- The scenario grid: a 10 × 10 torus. -/
def scenarioEnv : Env := ⟨true, 10, 10⟩

/-- A scenario state: agent and resource both anchored at cell (5,5), resource
initial amount 20, agent not removed. -/
def scenarioState (d : ℤ × ℤ) (energy collected amount : ℤ) : SimState :=
  { pos := (5, 5)
    dir := d
    energy := energy
    resources_collected := collected
    resource := ⟨amount, 20⟩
    resourcePos := (5, 5)
    removed := false }

/-- Start of the spec scenario: one agent with full energy on top of a fresh
amount-20 resource. -/
def scenarioInit (d : ℤ × ℤ) : SimState := scenarioState d 100 0 20

/-- The heading produced by the random-walk tier: a fresh compass choice in
the 20% reroll case, the previous heading otherwise. -/
def walkDir (walk : Option (Fin 8)) (dir : ℤ × ℤ) : ℤ × ℤ :=
  match walk with
  | some k => compassDir k
  | none => dir

/-- A scenario state one compass step away from the resource cell. -/
def offState (d : ℤ × ℤ) (energy collected amount : ℤ) : SimState :=
  { pos := (5 + d.1, 5 + d.2)
    dir := d
    energy := energy
    resources_collected := collected
    resource := ⟨amount, 20⟩
    resourcePos := (5, 5)
    removed := false }

/-! ## Continuous-variant model bookkeeping (models.py) -/

/-- Continuous-variant `Resource` (models.py lines 128-146). -/
structure CResource where
  pos : ℚ × ℚ
  amount : ℤ
  initial_amount : ℤ
deriving DecidableEq, Repr

/-- `Resource.is_depleted` (models.py line 145). -/
def CResource.is_depleted (r : CResource) : Bool := r.amount ≤ 0

/-- `calculate_mean_distance_to_resources` (models.py lines 8-33), abstracted
over the space's distance function `dist` (the source delegates to
`model.space.calculate_distances`, mesa's torus-aware Euclidean distance).
Returns `none` for the `np.nan` sentinel, `some 0` when there are no agents,
and otherwise the mean over agents of the distance to the nearest active
resource. -/
def calculate_mean_distance_to_resources (dist : (ℚ × ℚ) → (ℚ × ℚ) → ℚ)
    (agents : List (ℚ × ℚ)) (resources : List CResource) : Option ℚ :=
  if agents = [] then some 0
  else
    match resources.filter (fun r => ! r.is_depleted) with
    | [] => none
    | a :: rest =>
      let min_distances := agents.map (fun ag =>
        (rest.map (fun r => dist r.pos ag)).foldl min (dist a.pos ag))
      some (min_distances.sum / min_distances.length)

/-- Constructor parameters of `UnicellularModel.__init__` (models.py lines
36-45), all integers as delivered by the sliders. -/
structure ModelParams where
  population_size : ℤ
  width : ℤ
  height : ℤ
  num_resources : ℤ
  num_hazards : ℤ
  sensing_radius : ℤ
  movement_speed : ℤ
  avoidance_threshold : ℤ
deriving DecidableEq, Repr

/-- The configuration a successful construction records. -/
structure ModelConfig where
  num_agents : ℤ
  movement_speed : ℚ
  avoidance_threshold : ℚ
  numResourcesCreated : ℕ
  numHazardsCreated : ℕ
deriving DecidableEq, Repr

/-- Parameter handling of `UnicellularModel.__init__` (models.py lines
36-106): the constructor contains no validation of any parameter — no check,
no raise, no clamp.  It records the population size, rescales the two slider
integers (`* 0.01`, `* 0.1`), and creates resources and hazards by iterating
`range(count)`, so a negative count silently creates zero entities.  The
embedding therefore always returns `.ok`. -/
def modelInit (p : ModelParams) : Except String ModelConfig :=
  .ok { num_agents := p.population_size
        movement_speed := (p.movement_speed : ℚ) * (1/100)
        avoidance_threshold := (p.avoidance_threshold : ℚ) * (1/10)
        numResourcesCreated := p.num_resources.toNat
        numHazardsCreated := p.num_hazards.toNat }

/-- The initial heading assigned in `UnicellularAgent.__init__` (agents.py
lines 29-32): `random.choice` over the eight compass offsets drawn from
Python's module-level `random` generator — which the model never seeds — so
the heading is a function of the global generator's state `g`, not of the
model seed passed to `UnicellularModel`. -/
def initialDirection (g : Fin 8) : ℤ × ℤ := compassDir g

/-! ## Helper lemmas -/

lemma collectSum_nonneg (rs : List Resource) : 0 ≤ collectSum rs := by
  induction rs with
  | nil => simp [collectSum]
  | cons r rest ih =>
    simp only [collectSum, List.map_cons, List.sum_cons] at *
    have : (0:ℤ) ≤ if r.amount > 0 then min 5 r.amount else 0 := by
      split <;> omega
    omega

lemma hazardSum_nonneg (env : Env) (pos : ℤ × ℤ) (hs : List Hazard)
    (hd : ∀ h ∈ hs, 0 ≤ h.damage) : 0 ≤ hazardSum env pos hs := by
  induction hs with
  | nil => simp [hazardSum]
  | cons h rest ih =>
    have h0 := hd h (by simp)
    have hrest : 0 ≤ hazardSum env pos rest := ih (fun x hx => hd x (by simp [hx]))
    simp only [hazardSum, List.map_cons, List.sum_cons] at *
    split <;> omega

/-- One pass of `collect_resources` adds exactly `collectSum` to both the
energy and the cumulative counter. -/
lemma collect_resources_spec (rs : List Resource) (e c : ℤ) :
    (collect_resources rs e c).2.1 = e + collectSum rs ∧
    (collect_resources rs e c).2.2 = c + collectSum rs := by
  induction rs generalizing e c with
  | nil => simp [collect_resources, collectSum]
  | cons r rest ih =>
    by_cases hp : r.amount > 0
    · have hmin : min 5 r.amount > 0 := by omega
      have hdep : r.is_depleted = false := by
        simp [Resource.is_depleted]; omega
      simp only [collect_resources, hdep, Bool.false_eq_true, not_false_iff, if_true,
        Resource.collect, if_pos hp, hmin, if_pos]
      rcases ih (e + min 5 r.amount) (c + min 5 r.amount) with ⟨h1, h2⟩
      simp only [h1, h2, collectSum, List.map_cons, List.sum_cons, if_pos hp]
      omega
    · have hdep : r.is_depleted = true := by
        simp [Resource.is_depleted]; omega
      simp only [collect_resources, hdep, not_true, if_false]
      rcases ih e c with ⟨h1, h2⟩
      simp only [h1, h2, collectSum, List.map_cons, List.sum_cons, if_neg hp]
      omega

/-- Full characterization of `check_hazards` when the entering energy is
positive and all damages are nonnegative: the agent is not removed exactly
when the full covering damage leaves its energy positive, and in that case
the energy drops by the full covering damage. -/
lemma check_hazards_spec (env : Env) (pos : ℤ × ℤ) (hs : List Hazard) (e : ℤ)
    (hd : ∀ h ∈ hs, 0 ≤ h.damage) (he : 0 < e) :
    ((check_hazards env pos hs e).2 = false ↔ 0 < e - hazardSum env pos hs) ∧
    ((check_hazards env pos hs e).2 = false →
      (check_hazards env pos hs e).1 = e - hazardSum env pos hs) := by
  induction hs generalizing e with
  | nil =>
    simp only [check_hazards, hazardSum, List.map_nil, List.sum_nil]
    exact ⟨by simpa using he, by omega⟩
  | cons h rest ih =>
    have h0 := hd h (by simp)
    have hdrest : ∀ x ∈ rest, 0 ≤ x.damage := fun x hx => hd x (by simp [hx])
    have hSrest : 0 ≤ hazardSum env pos rest := hazardSum_nonneg env pos rest hdrest
    by_cases hcov : cell_distance env pos h.pos ≤ h.radius
    · by_cases hkill : e - h.damage ≤ 0
      · simp only [hazardSum] at hSrest
        simp only [check_hazards, if_pos hcov, if_pos hkill, hazardSum, List.map_cons,
          List.sum_cons, if_pos hcov]
        constructor
        · constructor
          · intro hfalse; cases hfalse
          · intro hlt; omega
        · intro hfalse; cases hfalse
      · have he2 : 0 < e - h.damage := by omega
        rcases ih (e - h.damage) hdrest he2 with ⟨ih1, ih2⟩
        simp only [check_hazards, if_pos hcov, if_neg hkill, hazardSum, List.map_cons,
          List.sum_cons, if_pos hcov] at *
        constructor
        · rw [ih1]; constructor <;> intro <;> omega
        · intro hfalse; rw [ih2 hfalse]; omega
    · rcases ih e hdrest he with ⟨ih1, ih2⟩
      simp only [check_hazards, if_neg hcov, hazardSum, List.map_cons,
        List.sum_cons, if_neg hcov] at *
      constructor
      · rw [ih1]; constructor <;> intro <;> omega
      · intro hfalse; rw [ih2 hfalse]; omega

/-! ## Claims -/

/-- C2: `Resource.collect` returns `min(requested, remaining)` when the
resource is not depleted, decrements the remaining amount by exactly the
returned value, returns 0 (leaving the resource unchanged and still
depleted) once depleted, and the amount never becomes negative. -/
theorem resource_collect_spec (r : Resource) (req : ℤ) (h : 0 ≤ r.amount) :
    (¬ r.is_depleted → (r.collect req).2 = min req r.amount) ∧
    ((r.collect req).1.amount = r.amount - (r.collect req).2) ∧
    (r.is_depleted → (r.collect req).2 = 0 ∧ (r.collect req).1 = r) ∧
    (r.is_depleted → (r.collect req).1.is_depleted) ∧
    0 ≤ (r.collect req).1.amount := by
  by_cases hp : r.amount > 0
  · have hdep : r.is_depleted = false := by
      simp only [Resource.is_depleted, decide_eq_false_iff_not, not_le]; omega
    refine ⟨fun _ => ?_, ?_, fun hd2 => ?_, fun hd2 => ?_, ?_⟩
    · simp [Resource.collect, hp]
    · simp [Resource.collect, hp]
    · rw [hdep] at hd2; cases hd2
    · rw [hdep] at hd2; cases hd2
    · simp only [Resource.collect, if_pos hp]; omega
  · have hdep : r.is_depleted = true := by
      simp only [Resource.is_depleted, decide_eq_true_eq]; omega
    refine ⟨fun hnd => ?_, ?_, fun _ => ?_, fun _ => ?_, ?_⟩
    · exact absurd hdep hnd
    · simp [Resource.collect, hp]
    · simp [Resource.collect, hp]
    · simpa [Resource.collect, hp] using hdep
    · simp only [Resource.collect, if_neg hp]; omega

/-- Witness for `resource_collect_spec` at a concrete undepleted resource. -/
theorem resource_collect_spec_witness :
    ((⟨10, 10⟩ : Resource).collect 3).2 = min 3 (⟨10, 10⟩ : Resource).amount ∧
    ((⟨10, 10⟩ : Resource).collect 3).1.amount =
      (⟨10, 10⟩ : Resource).amount - ((⟨10, 10⟩ : Resource).collect 3).2 ∧
    0 ≤ ((⟨10, 10⟩ : Resource).collect 3).1.amount := by
  have h := resource_collect_spec ⟨10, 10⟩ 3 (by decide)
  exact ⟨h.1 (by decide), h.2.1, h.2.2.2.2⟩

/-- C5: `cell_distance` is symmetric; in torus mode it is the max of the
per-axis wrapped differences, and for coordinates inside the grid extent the
per-axis wrapped difference is at most the direct difference, at most the
wrapped difference, and at most half the extent on that axis. -/
theorem cell_distance_symm_wrap_bounds (env : Env) (a b : ℤ × ℤ) :
    cell_distance env a b = cell_distance env b a ∧
    (env.torus = true →
      cell_distance env a b =
        max (wrapAxis env.width |a.1 - b.1|) (wrapAxis env.height |a.2 - b.2|)) ∧
    (inGrid env a → inGrid env b →
      (wrapAxis env.width |a.1 - b.1| ≤ |a.1 - b.1| ∧
        wrapAxis env.width |a.1 - b.1| ≤ env.width - |a.1 - b.1| ∧
        2 * wrapAxis env.width |a.1 - b.1| ≤ env.width) ∧
      (wrapAxis env.height |a.2 - b.2| ≤ |a.2 - b.2| ∧
        wrapAxis env.height |a.2 - b.2| ≤ env.height - |a.2 - b.2| ∧
        2 * wrapAxis env.height |a.2 - b.2| ≤ env.height)) := by
  refine ⟨?_, ?_, ?_⟩
  · simp only [cell_distance]
    rw [abs_sub_comm a.1 b.1, abs_sub_comm a.2 b.2]
  · intro ht; simp [cell_distance, wrapAxis, ht]
  · rintro ⟨ha1, ha2, ha3, ha4⟩ ⟨hb1, hb2, hb3, hb4⟩
    have hx : |a.1 - b.1| < env.width := by
      rcases abs_cases (a.1 - b.1) with ⟨hc, _⟩ | ⟨hc, _⟩ <;> omega
    have hy : |a.2 - b.2| < env.height := by
      rcases abs_cases (a.2 - b.2) with ⟨hc, _⟩ | ⟨hc, _⟩ <;> omega
    have hx0 : 0 ≤ |a.1 - b.1| := abs_nonneg _
    have hy0 : 0 ≤ |a.2 - b.2| := abs_nonneg _
    unfold wrapAxis
    omega

/-- Witness for `cell_distance_symm_wrap_bounds` on a concrete torus grid. -/
theorem cell_distance_symm_wrap_bounds_witness :
    cell_distance ⟨true, 10, 10⟩ (1, 2) (8, 3) = cell_distance ⟨true, 10, 10⟩ (8, 3) (1, 2) ∧
    cell_distance ⟨true, 10, 10⟩ (1, 2) (8, 3) =
      max (wrapAxis 10 |(1:ℤ) - 8|) (wrapAxis 10 |(2:ℤ) - 3|) ∧
    (wrapAxis 10 |(1:ℤ) - 8| ≤ |(1:ℤ) - 8| ∧
      wrapAxis 10 |(1:ℤ) - 8| ≤ 10 - |(1:ℤ) - 8| ∧
      2 * wrapAxis 10 |(1:ℤ) - 8| ≤ 10) ∧
    (wrapAxis 10 |(2:ℤ) - 3| ≤ |(2:ℤ) - 3| ∧
      wrapAxis 10 |(2:ℤ) - 3| ≤ 10 - |(2:ℤ) - 3| ∧
      2 * wrapAxis 10 |(2:ℤ) - 3| ≤ 10) := by
  have h := cell_distance_symm_wrap_bounds ⟨true, 10, 10⟩ (1, 2) (8, 3)
  exact ⟨h.1, h.2.1 rfl, (h.2.2 (by decide) (by decide)).1, (h.2.2 (by decide) (by decide)).2⟩

/-- C1: for a live agent (positive energy) and nonnegative hazard damages,
the interaction-and-update phase adds exactly `collectSum` to the cumulative
counter; the agent is removed exactly when
`energy - 1 + collected - total covering damage ≤ 0`; and a surviving
agent's energy equals `energy - 1 + collected - total covering damage`. -/
theorem step_energy_accounting (env : Env) (pos : ℤ × ℤ) (cellResources : List Resource)
    (hazards : List Hazard) (energy collected : ℤ)
    (hd : ∀ h ∈ hazards, 0 ≤ h.damage) (he : 0 < energy) :
    (interact_update env pos cellResources hazards energy collected).resources_collected
      = collected + collectSum cellResources ∧
    ((interact_update env pos cellResources hazards energy collected).removed = false ↔
      0 < energy - 1 + collectSum cellResources - hazardSum env pos hazards) ∧
    ((interact_update env pos cellResources hazards energy collected).removed = false →
      (interact_update env pos cellResources hazards energy collected).energy
        = energy - 1 + collectSum cellResources - hazardSum env pos hazards) := by
  have hc := collect_resources_spec cellResources energy collected
  have hcs := collectSum_nonneg cellResources
  have he1 : 0 < energy + collectSum cellResources := by omega
  have hz := check_hazards_spec env pos hazards (energy + collectSum cellResources) hd he1
  simp only [interact_update, hc.1, hc.2]
  rcases hz with ⟨hz1, hz2⟩
  refine ⟨trivial, ?_, ?_⟩
  · constructor
    · intro hrem
      rcases Bool.or_eq_false_iff.mp hrem with ⟨ha, hb⟩
      have hv := hz2 ha
      have hb2 := of_decide_eq_false hb
      omega
    · intro hgt
      have hfalse : (check_hazards env pos hazards (energy + collectSum cellResources)).2 = false :=
        hz1.mpr (by omega)
      have hv := hz2 hfalse
      refine Bool.or_eq_false_iff.mpr ⟨hfalse, decide_eq_false ?_⟩
      omega
  · intro hrem
    rcases Bool.or_eq_false_iff.mp hrem with ⟨ha, _⟩
    have hv := hz2 ha
    omega

/-- Witness for `step_energy_accounting`: a 100-energy agent on a cell with a
7-unit resource, covered by one damage-3 hazard, ends the tick with energy
`100 - 1 + 5 - 3 = 101` and is not removed. -/
theorem step_energy_accounting_witness :
    (interact_update ⟨false, 100, 100⟩ (0, 0) [⟨7, 7⟩] [⟨(0, 0), 3, 2⟩] 100 0).resources_collected
      = 0 + collectSum [⟨7, 7⟩] ∧
    ((interact_update ⟨false, 100, 100⟩ (0, 0) [⟨7, 7⟩] [⟨(0, 0), 3, 2⟩] 100 0).removed = false ↔
      0 < 100 - 1 + collectSum [⟨7, 7⟩] - hazardSum ⟨false, 100, 100⟩ (0, 0) [⟨(0, 0), 3, 2⟩]) ∧
    (interact_update ⟨false, 100, 100⟩ (0, 0) [⟨7, 7⟩] [⟨(0, 0), 3, 2⟩] 100 0).energy
      = 100 - 1 + collectSum [⟨7, 7⟩] - hazardSum ⟨false, 100, 100⟩ (0, 0) [⟨(0, 0), 3, 2⟩] := by
  have h := step_energy_accounting ⟨false, 100, 100⟩ (0, 0) [⟨7, 7⟩] [⟨(0, 0), 3, 2⟩] 100 0
    (by decide) (by decide)
  exact ⟨h.1, h.2.1, h.2.2 (by decide)⟩

/-- C4 counterexample: an agent with energy 5 standing where two damage-10
hazards overlap loses only the first hazard's damage — the loop removes the
agent and returns early, so its energy ends at -5, not `5 - 20 = -15` as the
all-hazards-cumulative claim requires. -/
theorem check_hazards_counterexample :
    check_hazards ⟨false, 100, 100⟩ (0, 0) [⟨(0, 0), 10, 2⟩, ⟨(0, 0), 10, 2⟩] 5 = (-5, true) ∧
    hazardSum ⟨false, 100, 100⟩ (0, 0) [⟨(0, 0), 10, 2⟩, ⟨(0, 0), 10, 2⟩] = 20 ∧
    (5 : ℤ) - 20 ≠ -5 := by decide

/-- C4 amended: damage is applied cumulatively from the covering hazards in
iteration order, stopping early (with removal) the moment energy drops to
`≤ 0`; an agent that is not removed takes exactly the full sum of the
damages of all covering hazards, and survival happens exactly when that full
sum leaves its energy positive. -/
theorem check_hazards_amended (env : Env) (pos : ℤ × ℤ) (hazards : List Hazard) (energy : ℤ)
    (hd : ∀ h ∈ hazards, 0 ≤ h.damage) (he : 0 < energy) :
    ((check_hazards env pos hazards energy).2 = false →
      (check_hazards env pos hazards energy).1 = energy - hazardSum env pos hazards) ∧
    ((check_hazards env pos hazards energy).2 = false ↔
      0 < energy - hazardSum env pos hazards) := by
  have h := check_hazards_spec env pos hazards energy hd he
  exact ⟨h.2, h.1⟩

/-- Witness for `check_hazards_amended`: a 100-energy agent covered by a
damage-3 and a damage-4 hazard survives with energy `100 - 7`. -/
theorem check_hazards_amended_witness :
    (check_hazards ⟨false, 100, 100⟩ (0, 0) [⟨(0, 0), 3, 2⟩, ⟨(2, 2), 4, 3⟩] 100).1
      = 100 - hazardSum ⟨false, 100, 100⟩ (0, 0) [⟨(0, 0), 3, 2⟩, ⟨(2, 2), 4, 3⟩] ∧
    ((check_hazards ⟨false, 100, 100⟩ (0, 0) [⟨(0, 0), 3, 2⟩, ⟨(2, 2), 4, 3⟩] 100).2 = false ↔
      0 < 100 - hazardSum ⟨false, 100, 100⟩ (0, 0) [⟨(0, 0), 3, 2⟩, ⟨(2, 2), 4, 3⟩]) := by
  have h := check_hazards_amended ⟨false, 100, 100⟩ (0, 0) [⟨(0, 0), 3, 2⟩, ⟨(2, 2), 4, 3⟩] 100
    (by decide) (by decide)
  exact ⟨h.1 (by decide), h.2⟩

/-- C10: for every compass direction, speed ≥ 1 and in-grid start, the moved
coordinate stays inside `[0, width) × [0, height)` in both torus and bounded
mode; and with speed 1 at a bounded edge with no connection in that
direction the agent stays in place. -/
theorem move_stays_in_grid (env : Env) (pos : ℤ × ℤ) (speed : ℤ) (dir : ℤ × ℤ)
    (hdir : dir ∈ compassDirections) (hspeed : 1 ≤ speed)
    (hw : 0 < env.width) (hh : 0 < env.height) (hpos : inGrid env pos) :
    inGrid env (move env pos speed dir) ∧
    (env.torus = false → speed = 1 → connection env pos dir = none →
      move env pos speed dir = pos) := by
  obtain ⟨hp1, hp2, hp3, hp4⟩ := hpos
  constructor
  · simp only [move]
    split_ifs with h1 ht2
    · simp only [connection]
      split_ifs with ht hc
      · exact ⟨Int.emod_nonneg _ (by omega), Int.emod_lt_of_pos _ hw,
          Int.emod_nonneg _ (by omega), Int.emod_lt_of_pos _ hh⟩
      · exact hc
      · exact ⟨hp1, hp2, hp3, hp4⟩
    · exact ⟨Int.emod_nonneg _ (by omega), Int.emod_lt_of_pos _ hw,
        Int.emod_nonneg _ (by omega), Int.emod_lt_of_pos _ hh⟩
    · refine ⟨?_, ?_, ?_, ?_⟩ <;> dsimp only <;> omega
  · intro ht h1 hcon
    simp [move, h1, hcon]

/-- Witness for `move_stays_in_grid` on a concrete torus grid. -/
theorem move_stays_in_grid_witness :
    inGrid ⟨true, 10, 10⟩ (move ⟨true, 10, 10⟩ (5, 5) 1 (0, 1)) ∧
    ((⟨true, 10, 10⟩ : Env).torus = false → (1 : ℤ) = 1 →
      connection ⟨true, 10, 10⟩ (5, 5) (0, 1) = none →
      move ⟨true, 10, 10⟩ (5, 5) 1 (0, 1) = (5, 5)) :=
  move_stays_in_grid ⟨true, 10, 10⟩ (5, 5) 1 (0, 1) (by decide) (by decide)
    (by decide) (by decide) (by decide)

/-- C8: with at least one live agent and every resource depleted, the mean
distance reporter returns the NaN sentinel (`none`) instead of raising, for
every distance function. -/
theorem mean_distance_nan_sentinel (dist : (ℚ × ℚ) → (ℚ × ℚ) → ℚ)
    (agents : List (ℚ × ℚ)) (resources : List CResource)
    (ha : agents ≠ []) (hr : ∀ r ∈ resources, r.is_depleted) :
    calculate_mean_distance_to_resources dist agents resources = none := by
  have hfil : resources.filter (fun r => ! r.is_depleted) = [] := by
    apply List.filter_eq_nil_iff.mpr
    intro r hrr
    simp [hr r hrr]
  simp only [calculate_mean_distance_to_resources, if_neg ha, hfil]

/-- Witness for `mean_distance_nan_sentinel`: one agent, one depleted
resource. -/
theorem mean_distance_nan_sentinel_witness :
    calculate_mean_distance_to_resources (fun _ _ => 0) [(0, 0)] [⟨(1, 1), 0, 20⟩] = none :=
  mean_distance_nan_sentinel (fun _ _ => 0) [(0, 0)] [⟨(1, 1), 0, 20⟩]
    (by decide) (by decide)

/-- C7 (code bug): `UnicellularModel.__init__` never rejects any parameter
combination — in particular, constructing with `num_resources = -5` (all
other parameters at their defaults) succeeds, silently creating zero
resources, instead of failing fast with a descriptive error. -/
theorem modelInit_no_validation :
    (∀ p : ModelParams, ∃ c, modelInit p = Except.ok c) ∧
    modelInit ⟨50, 100, 100, -5, 5, 15, 10, 30⟩ = Except.ok ⟨50, 1/10, 3, 0, 5⟩ := by
  refine ⟨fun p => ⟨_, rfl⟩, ?_⟩
  simp only [modelInit, Except.ok.injEq, ModelConfig.mk.injEq]
  norm_num
  decide

/-- C6 (code bug): the agent's initial heading and the random-walk reroll are
drawn from Python's module-level `random` generator, which the model seed
never touches; the resulting direction genuinely depends on that global
state (`some 0` versus `some 2` give different headings), so two runs with
the same seed and parameters are not determined by the seed. -/
theorem randomness_global_generator :
    initialDirection 0 ≠ initialDirection 2 ∧
    initialDirection 0 = (0, 1) ∧ initialDirection 2 = (1, 0) ∧
    decide_movement ⟨true, 100, 100⟩ (5, 5) [] [] (some 0) (1, 1)
      ≠ decide_movement ⟨true, 100, 100⟩ (5, 5) [] [] (some 2) (1, 1) := by decide

/-! ## Decision-policy lemmas over the rational weights -/

lemma qsign_ne_zero (q : ℚ) (h : q ≠ 0) : qsign q ≠ 0 := by
  rcases lt_trichotomy q 0 with hlt | heq | hgt
  · simp only [qsign, if_neg (by linarith : ¬ (0:ℚ) < q), if_pos hlt]; decide
  · exact absurd heq h
  · simp only [qsign, if_pos hgt]; decide

lemma qsign_int_mul_pos (t : ℤ) (w : ℚ) (hw : 0 < w) :
    qsign ((t : ℚ) * w) = Int.sign t := by
  rcases lt_trichotomy t 0 with h | h | h
  · have ht : (t : ℚ) < 0 := by exact_mod_cast h
    have hm : (t : ℚ) * w < 0 := mul_neg_of_neg_of_pos ht hw
    simp only [qsign, if_neg (by linarith : ¬ (0:ℚ) < (t : ℚ) * w), if_pos hm,
      Int.sign_eq_neg_one_iff_neg.mpr h]
  · subst h; simp [qsign]
  · have ht : (0 : ℚ) < (t : ℚ) := by exact_mod_cast h
    have hm : 0 < (t : ℚ) * w := mul_pos ht hw
    simp only [qsign, if_pos hm, Int.sign_eq_one_iff_pos.mpr h]

lemma get_direction_to_sign_idem (env : Env) (my target : ℤ × ℤ) :
    ((get_direction_to env my target).1).sign = (get_direction_to env my target).1 ∧
    ((get_direction_to env my target).2).sign = (get_direction_to env my target).2 := by
  simp only [get_direction_to]
  exact ⟨Int.sign_sign, Int.sign_sign⟩

/-- With no hazards and a single sensed resource, the decision policy moves
toward the resource when the toward-direction is nonzero and otherwise falls
through to the random-walk tier. -/
lemma decide_movement_single_resource (env : Env) (my rpos : ℤ × ℤ) (dist : ℤ)
    (hdist : 0 ≤ dist) (walk : Option (Fin 8)) (dir : ℤ × ℤ) :
    decide_movement env my [⟨rpos, dist⟩] [] walk dir =
      if get_direction_to env my rpos = (0, 0) then walkDir walk dir
      else get_direction_to env my rpos := by
  have hw : (0 : ℚ) < 1 / ((dist : ℚ) + 1) := by
    apply div_pos one_pos
    have : (0 : ℚ) ≤ (dist : ℚ) := by exact_mod_cast hdist
    linarith
  have hrw : resourceWeightedSum env my [⟨rpos, dist⟩] =
      (((get_direction_to env my rpos).1 : ℚ) * (1 / ((dist : ℚ) + 1)),
       ((get_direction_to env my rpos).2 : ℚ) * (1 / ((dist : ℚ) + 1))) := by
    simp [resourceWeightedSum]
  simp only [decide_movement, hrw]
  rw [if_neg (by simp)]
  by_cases h0 : get_direction_to env my rpos = (0, 0)
  · have h1 : (get_direction_to env my rpos).1 = 0 := by rw [h0]
    have h2 : (get_direction_to env my rpos).2 = 0 := by rw [h0]
    rw [if_neg (by simp [h1, h2]), if_pos h0]
    cases walk <;> rfl
  · have hcomp : (get_direction_to env my rpos).1 ≠ 0 ∨ (get_direction_to env my rpos).2 ≠ 0 := by
      by_contra hc
      push_neg at hc
      exact h0 (Prod.ext hc.1 hc.2)
    have hcond : (((get_direction_to env my rpos).1 : ℚ) * (1 / ((dist : ℚ) + 1)) ≠ 0 ∨
        ((get_direction_to env my rpos).2 : ℚ) * (1 / ((dist : ℚ) + 1)) ≠ 0) := by
      rcases hcomp with h | h
      · exact Or.inl (mul_ne_zero (by exact_mod_cast h) (ne_of_gt hw))
      · exact Or.inr (mul_ne_zero (by exact_mod_cast h) (ne_of_gt hw))
    rw [if_pos ⟨by simp, hcond⟩, if_neg h0]
    rw [qsign_int_mul_pos _ _ hw, qsign_int_mul_pos _ _ hw]
    have hs := get_direction_to_sign_idem env my rpos
    rw [hs.1, hs.2]

/-- C3 counterexample: the agent at (5,5) senses two symmetric hazards (at
(3,5) and (7,5), radius 1, distance 2 — well inside sensing range 15) and a
resource at (6,5).  The hazard tier's weighted away-vector cancels to (0,0),
so the policy falls through and returns (1,0) — the direction toward the
resource and straight toward the hazard at (7,5) — refuting the claim that a
sensed hazard always yields a nonzero away-pointing direction. -/
theorem decide_movement_hazard_counterexample :
    decide_movement ⟨false, 100, 100⟩ (5, 5) [⟨(6, 5), 1⟩]
        [⟨⟨(3, 5), 10, 1⟩, 2⟩, ⟨⟨(7, 5), 10, 1⟩, 2⟩] none (0, 1) = (1, 0) ∧
    hazardWeightedSum ⟨false, 100, 100⟩ (5, 5)
        [⟨⟨(3, 5), 10, 1⟩, 2⟩, ⟨⟨(7, 5), 10, 1⟩, 2⟩] = (0, 0) ∧
    get_direction_to ⟨false, 100, 100⟩ (5, 5) (7, 5) = (1, 0) ∧
    ((2 : ℤ) ≤ 15 + 1) := by
  have haway1 : get_direction_away ⟨false, 100, 100⟩ (5, 5) (3, 5) = (1, 0) := by decide
  have haway2 : get_direction_away ⟨false, 100, 100⟩ (5, 5) (7, 5) = (-1, 0) := by decide
  have hhw : hazardWeightedSum ⟨false, 100, 100⟩ (5, 5)
      [⟨⟨(3, 5), 10, 1⟩, 2⟩, ⟨⟨(7, 5), 10, 1⟩, 2⟩] = (0, 0) := by
    simp only [hazardWeightedSum, List.foldl_cons, List.foldl_nil, haway1, haway2]
    norm_num [max_def]
  have hto : get_direction_to ⟨false, 100, 100⟩ (5, 5) (6, 5) = (1, 0) := by decide
  have hrw : resourceWeightedSum ⟨false, 100, 100⟩ (5, 5) [⟨(6, 5), 1⟩] = (1/2, 0) := by
    simp only [resourceWeightedSum, List.foldl_cons, List.foldl_nil, hto]
    norm_num
  refine ⟨?_, hhw, by decide, by norm_num⟩
  simp only [decide_movement, hhw, hrw]
  rw [if_neg (by simp), if_pos ⟨by simp, Or.inl (by norm_num)⟩]
  norm_num [qsign]

/-- C3 amended: whenever at least one hazard is sensed and the hazard tier's
weighted away-vector is nonzero, the returned direction is exactly the
per-axis sign of that weighted away-vector — nonzero, and entirely
independent of the sensed resources (which do not appear in the result). -/
theorem decide_movement_hazard_tier (env : Env) (my : ℤ × ℤ)
    (resources : List SensedResource) (hazards : List SensedHazard)
    (walk : Option (Fin 8)) (dir : ℤ × ℤ)
    (hne : hazards ≠ [])
    (hnz : hazardWeightedSum env my hazards ≠ (0, 0)) :
    decide_movement env my resources hazards walk dir =
      (qsign (hazardWeightedSum env my hazards).1,
       qsign (hazardWeightedSum env my hazards).2) ∧
    decide_movement env my resources hazards walk dir ≠ (0, 0) := by
  have hcomp : (hazardWeightedSum env my hazards).1 ≠ 0 ∨
      (hazardWeightedSum env my hazards).2 ≠ 0 := by
    by_contra hc
    push_neg at hc
    exact hnz (Prod.ext hc.1 hc.2)
  have heq : decide_movement env my resources hazards walk dir =
      (qsign (hazardWeightedSum env my hazards).1,
       qsign (hazardWeightedSum env my hazards).2) := by
    simp only [decide_movement]
    rw [if_pos ⟨hne, hcomp⟩]
  refine ⟨heq, ?_⟩
  rw [heq]
  intro hcontra
  rw [Prod.mk.injEq] at hcontra
  rcases hcomp with hq | hq
  · exact qsign_ne_zero _ hq hcontra.1
  · exact qsign_ne_zero _ hq hcontra.2

/-- Witness for `decide_movement_hazard_tier`: one hazard sensed east of the
agent (resource also present): the returned direction is (-1, 0). -/
theorem decide_movement_hazard_tier_witness :
    decide_movement ⟨false, 100, 100⟩ (5, 5) [⟨(6, 5), 1⟩] [⟨⟨(8, 5), 10, 1⟩, 3⟩] none (0, 1)
      = (qsign (hazardWeightedSum ⟨false, 100, 100⟩ (5, 5) [⟨⟨(8, 5), 10, 1⟩, 3⟩]).1,
         qsign (hazardWeightedSum ⟨false, 100, 100⟩ (5, 5) [⟨⟨(8, 5), 10, 1⟩, 3⟩]).2) ∧
    decide_movement ⟨false, 100, 100⟩ (5, 5) [⟨(6, 5), 1⟩] [⟨⟨(8, 5), 10, 1⟩, 3⟩] none (0, 1)
      ≠ (0, 0) := by
  have haway : get_direction_away ⟨false, 100, 100⟩ (5, 5) (8, 5) = (-1, 0) := by decide
  have hval : hazardWeightedSum ⟨false, 100, 100⟩ (5, 5) [⟨⟨(8, 5), 10, 1⟩, 3⟩]
      = (-(10/21), 0) := by
    simp only [hazardWeightedSum, List.foldl_cons, List.foldl_nil, haway]
    norm_num [max_def]
  have hnz : hazardWeightedSum ⟨false, 100, 100⟩ (5, 5) [⟨⟨(8, 5), 10, 1⟩, 3⟩] ≠ (0, 0) := by
    rw [hval]
    simp only [ne_eq, Prod.mk.injEq, not_and]
    intro hx
    norm_num at hx
  exact decide_movement_hazard_tier ⟨false, 100, 100⟩ (5, 5) [⟨(6, 5), 1⟩]
    [⟨⟨(8, 5), 10, 1⟩, 3⟩] none (0, 1) (by simp) hnz

/-! ## The one-resource scenario, tick by tick -/

lemma compassDir_mem (k : Fin 8) : compassDir k ∈ compassDirections := by
  fin_cases k <;> decide

lemma walkDir_mem (w : Option (Fin 8)) (d : ℤ × ℤ) (hd : d ∈ compassDirections) :
    walkDir w d ∈ compassDirections := by
  cases w with
  | none => exact hd
  | some k => exact compassDir_mem k

lemma compass_neg_mem (d : ℤ × ℤ) (hd : d ∈ compassDirections) :
    ((-d.1, -d.2) : ℤ × ℤ) ∈ compassDirections := by
  fin_cases hd <;> decide

lemma connection_center (d : ℤ × ℤ) (hd : d ∈ compassDirections) :
    connection scenarioEnv (5, 5) d = some (5 + d.1, 5 + d.2) := by
  fin_cases hd <;> decide

lemma connection_back (d : ℤ × ℤ) (hd : d ∈ compassDirections) :
    connection scenarioEnv (5 + d.1, 5 + d.2) (-d.1, -d.2) = some (5, 5) := by
  fin_cases hd <;> decide

lemma offset_ne_center (d : ℤ × ℤ) (hd : d ∈ compassDirections) :
    ((5 + d.1, 5 + d.2) : ℤ × ℤ) ≠ (5, 5) := by
  fin_cases hd <;> decide

lemma cell_distance_offset (d : ℤ × ℤ) (hd : d ∈ compassDirections) :
    cell_distance scenarioEnv (5 + d.1, 5 + d.2) (5, 5) = 1 := by
  fin_cases hd <;> decide

lemma get_direction_to_back (d : ℤ × ℤ) (hd : d ∈ compassDirections) :
    get_direction_to scenarioEnv (5 + d.1, 5 + d.2) (5, 5) = (-d.1, -d.2) := by
  fin_cases hd <;> decide

lemma compass_neg_ne_zero (d : ℤ × ℤ) (hd : d ∈ compassDirections) :
    ((-d.1, -d.2) : ℤ × ℤ) ≠ (0, 0) := by
  fin_cases hd <;> decide

lemma move_center (d : ℤ × ℤ) (hd : d ∈ compassDirections) :
    move scenarioEnv (5, 5) 1 d = (5 + d.1, 5 + d.2) := by
  simp [move, connection_center d hd]

lemma move_back (d : ℤ × ℤ) (hd : d ∈ compassDirections) :
    move scenarioEnv (5 + d.1, 5 + d.2) 1 (-d.1, -d.2) = (5, 5) := by
  simp [move, connection_back d hd]

/-- A tick that starts on the resource cell: the toward-vector is zero, so
the agent random-walks one compass step off the resource, collecting
nothing, and pays the tick cost. -/
lemma tick_on_resource (d : ℤ × ℤ) (hd : d ∈ compassDirections) (w : Option (Fin 8))
    (e c a : ℤ) (ha : 0 < a) (he : 1 < e) :
    tick scenarioEnv 5 1 w (scenarioState d e c a) = offState (walkDir w d) (e - 1) c a := by
  have hdep : (⟨a, 20⟩ : Resource).is_depleted = false := by
    simp only [Resource.is_depleted, decide_eq_false_iff_not, not_le]; omega
  have hsense : senseResource scenarioEnv 5 (scenarioState d e c a) = [⟨(5, 5), 0⟩] := by
    have h1 : cell_distance scenarioEnv (5, 5) (5, 5) = 0 := by decide
    simp [senseResource, scenarioState, h1, hdep]
  have hto : get_direction_to scenarioEnv (5, 5) (5, 5) = (0, 0) := by decide
  have hdm : decide_movement scenarioEnv (5, 5) [⟨(5, 5), 0⟩] [] w d = walkDir w d := by
    rw [decide_movement_single_resource scenarioEnv (5, 5) (5, 5) 0 le_rfl w d, hto, if_pos rfl]
  have hmem := walkDir_mem w d hd
  have hnot := offset_ne_center (walkDir w d) hmem
  simp only [scenarioState] at hsense
  simp only [tick, scenarioState, Bool.false_eq_true, if_false, hsense, hdm,
    move_center (walkDir w d) hmem, if_neg hnot, collect_resources, check_hazards]
  simp only [offState, SimState.mk.injEq]
  refine ⟨?_, ?_, ?_, ?_, ?_, ?_, ?_⟩ <;>
    first
      | trivial
      | (simp only [Bool.false_or, decide_eq_false_iff_not, not_le]; omega)
      | omega

/-- A tick that starts one compass step off the resource cell: the agent
moves straight back onto the resource and collects 5. -/
lemma tick_back (d : ℤ × ℤ) (hd : d ∈ compassDirections) (w : Option (Fin 8))
    (e c a : ℤ) (ha : 5 ≤ a) (he : 0 < e + 4) :
    tick scenarioEnv 5 1 w (offState d e c a) = scenarioState (-d.1, -d.2) (e + 4) (c + 5) (a - 5) := by
  have hdep : (⟨a, 20⟩ : Resource).is_depleted = false := by
    simp only [Resource.is_depleted, decide_eq_false_iff_not, not_le]; omega
  have hsense : senseResource scenarioEnv 5 (offState d e c a) = [⟨(5, 5), 1⟩] := by
    have h1 := cell_distance_offset d hd
    simp [senseResource, offState, h1, hdep]
  have hto := get_direction_to_back d hd
  have hdm : decide_movement scenarioEnv (5 + d.1, 5 + d.2) [⟨(5, 5), 1⟩] [] w d
      = (-d.1, -d.2) := by
    rw [decide_movement_single_resource scenarioEnv (5 + d.1, 5 + d.2) (5, 5) 1 (by omega) w d,
      hto, if_neg (compass_neg_ne_zero d hd)]
  have hcollect : collect_resources [(⟨a, 20⟩ : Resource)] e c
      = ([⟨a - 5, 20⟩], e + 5, c + 5) := by
    have hmin : min (5 : ℤ) a = 5 := min_eq_left (by omega)
    simp only [collect_resources, hdep, Bool.false_eq_true, not_false_iff, if_true,
      Resource.collect, if_pos (by omega : a > 0), hmin, if_pos (by omega : (5:ℤ) > 0)]
  simp only [offState] at hsense
  simp only [tick, offState, Bool.false_eq_true, if_false, hsense, hdm,
    move_back d hd, if_pos rfl, if_true, hcollect, check_hazards]
  simp only [scenarioState, SimState.mk.injEq, List.headD_cons]
  refine ⟨?_, ?_, ?_, ?_, ?_, ?_, ?_⟩ <;>
    first
      | trivial
      | (simp only [Bool.false_or, decide_eq_false_iff_not, not_le]; omega)
      | omega

/-- C9 counterexample: with the resource directly under the agent's start
cell, after 4 ticks the agent has collected only 10 units and the resource
holds 10 — it is not depleted and `resources_collected` is not 20.  (The
agent cannot stay on the resource: a resource at its own cell contributes a
zero toward-vector, so each on-resource tick random-walks off and only every
second tick collects.) -/
theorem scenario_four_ticks_counterexample :
    (runTicks scenarioEnv 5 1 [none, none, none, none] (scenarioInit (0, 1))).resources_collected
      = 10 ∧
    (runTicks scenarioEnv 5 1 [none, none, none, none] (scenarioInit (0, 1))).resource.amount
      = 10 ∧
    ¬ (runTicks scenarioEnv 5 1 [none, none, none, none] (scenarioInit (0, 1))).resource.is_depleted ∧
    (runTicks scenarioEnv 5 1 [none, none, none, none] (scenarioInit (0, 1))).resources_collected
      ≠ 20 := by
  have hmem : ((0, 1) : ℤ × ℤ) ∈ compassDirections := by decide
  have hmem2 : ((0, -1) : ℤ × ℤ) ∈ compassDirections := by decide
  have h1 : tick scenarioEnv 5 1 none (scenarioState (0, 1) 100 0 20)
      = offState (0, 1) 99 0 20 := by
    have h := tick_on_resource (0, 1) hmem none 100 0 20 (by omega) (by omega)
    norm_num [walkDir] at h
    exact h
  have h2 : tick scenarioEnv 5 1 none (offState (0, 1) 99 0 20)
      = scenarioState (0, -1) 103 5 15 := by
    have h := tick_back (0, 1) hmem none 99 0 20 (by omega) (by omega)
    norm_num at h
    exact h
  have h3 : tick scenarioEnv 5 1 none (scenarioState (0, -1) 103 5 15)
      = offState (0, -1) 102 5 15 := by
    have h := tick_on_resource (0, -1) hmem2 none 103 5 15 (by omega) (by omega)
    norm_num [walkDir] at h
    exact h
  have h4 : tick scenarioEnv 5 1 none (offState (0, -1) 102 5 15)
      = scenarioState (0, 1) 106 10 10 := by
    have h := tick_back (0, -1) hmem2 none 102 5 15 (by omega) (by omega)
    norm_num at h
    exact h
  have hrun : runTicks scenarioEnv 5 1 [none, none, none, none] (scenarioInit (0, 1))
      = scenarioState (0, 1) 106 10 10 := by
    simp only [runTicks, scenarioInit]
    rw [h1, h2, h3, h4]
  rw [hrun]
  exact ⟨rfl, rfl, by decide, by decide⟩

/-- C9 amended: the agent oscillates on and off the resource cell, collecting
5 units every second tick, for every initial compass heading and every
random-walk stream: after 8 ticks (not 4) the resource is depleted and
`resources_collected` is 20, with the agent still alive. -/
theorem scenario_resource20_eight_ticks (d : ℤ × ℤ) (hd : d ∈ compassDirections)
    (w1 w2 w3 w4 w5 w6 w7 w8 : Option (Fin 8)) :
    (runTicks scenarioEnv 5 1 [w1, w2, w3, w4, w5, w6, w7, w8] (scenarioInit d)).resources_collected
      = 20 ∧
    (runTicks scenarioEnv 5 1 [w1, w2, w3, w4, w5, w6, w7, w8] (scenarioInit d)).resource.amount
      = 0 ∧
    (runTicks scenarioEnv 5 1 [w1, w2, w3, w4, w5, w6, w7, w8] (scenarioInit d)).resource.is_depleted ∧
    (runTicks scenarioEnv 5 1 [w1, w2, w3, w4, w5, w6, w7, w8] (scenarioInit d)).removed = false := by
  have hm1 := walkDir_mem w1 d hd
  have hm2 := compass_neg_mem (walkDir w1 d) hm1
  have hm3 := walkDir_mem w3 (-(walkDir w1 d).1, -(walkDir w1 d).2) hm2
  have hm4 := compass_neg_mem (walkDir w3 (-(walkDir w1 d).1, -(walkDir w1 d).2)) hm3
  set d4 : ℤ × ℤ := (-(walkDir w3 (-(walkDir w1 d).1, -(walkDir w1 d).2)).1,
    -(walkDir w3 (-(walkDir w1 d).1, -(walkDir w1 d).2)).2) with hd4
  have hm5 := walkDir_mem w5 d4 hm4
  have hm6 := compass_neg_mem (walkDir w5 d4) hm5
  have hm7 := walkDir_mem w7 (-(walkDir w5 d4).1, -(walkDir w5 d4).2) hm6
  have h1 : tick scenarioEnv 5 1 w1 (scenarioState d 100 0 20)
      = offState (walkDir w1 d) 99 0 20 := by
    have h := tick_on_resource d hd w1 100 0 20 (by omega) (by omega)
    norm_num at h
    exact h
  have h2 : tick scenarioEnv 5 1 w2 (offState (walkDir w1 d) 99 0 20)
      = scenarioState (-(walkDir w1 d).1, -(walkDir w1 d).2) 103 5 15 := by
    have h := tick_back (walkDir w1 d) hm1 w2 99 0 20 (by omega) (by omega)
    norm_num at h
    exact h
  have h3 : tick scenarioEnv 5 1 w3 (scenarioState (-(walkDir w1 d).1, -(walkDir w1 d).2) 103 5 15)
      = offState (walkDir w3 (-(walkDir w1 d).1, -(walkDir w1 d).2)) 102 5 15 := by
    have h := tick_on_resource (-(walkDir w1 d).1, -(walkDir w1 d).2) hm2 w3 103 5 15
      (by omega) (by omega)
    norm_num at h
    exact h
  have h4 : tick scenarioEnv 5 1 w4
        (offState (walkDir w3 (-(walkDir w1 d).1, -(walkDir w1 d).2)) 102 5 15)
      = scenarioState d4 106 10 10 := by
    have h := tick_back (walkDir w3 (-(walkDir w1 d).1, -(walkDir w1 d).2)) hm3 w4 102 5 15
      (by omega) (by omega)
    norm_num at h
    rw [hd4]
    exact h
  have h5 : tick scenarioEnv 5 1 w5 (scenarioState d4 106 10 10)
      = offState (walkDir w5 d4) 105 10 10 := by
    have h := tick_on_resource d4 hm4 w5 106 10 10 (by omega) (by omega)
    norm_num at h
    exact h
  have h6 : tick scenarioEnv 5 1 w6 (offState (walkDir w5 d4) 105 10 10)
      = scenarioState (-(walkDir w5 d4).1, -(walkDir w5 d4).2) 109 15 5 := by
    have h := tick_back (walkDir w5 d4) hm5 w6 105 10 10 (by omega) (by omega)
    norm_num at h
    exact h
  have h7 : tick scenarioEnv 5 1 w7 (scenarioState (-(walkDir w5 d4).1, -(walkDir w5 d4).2) 109 15 5)
      = offState (walkDir w7 (-(walkDir w5 d4).1, -(walkDir w5 d4).2)) 108 15 5 := by
    have h := tick_on_resource (-(walkDir w5 d4).1, -(walkDir w5 d4).2) hm6 w7 109 15 5
      (by omega) (by omega)
    norm_num at h
    exact h
  have h8 : tick scenarioEnv 5 1 w8
        (offState (walkDir w7 (-(walkDir w5 d4).1, -(walkDir w5 d4).2)) 108 15 5)
      = scenarioState (-(walkDir w7 (-(walkDir w5 d4).1, -(walkDir w5 d4).2)).1,
          -(walkDir w7 (-(walkDir w5 d4).1, -(walkDir w5 d4).2)).2) 112 20 0 := by
    have h := tick_back (walkDir w7 (-(walkDir w5 d4).1, -(walkDir w5 d4).2)) hm7 w8 108 15 5
      (by omega) (by omega)
    norm_num at h
    exact h
  have hrun : runTicks scenarioEnv 5 1 [w1, w2, w3, w4, w5, w6, w7, w8] (scenarioInit d)
      = scenarioState (-(walkDir w7 (-(walkDir w5 d4).1, -(walkDir w5 d4).2)).1,
        -(walkDir w7 (-(walkDir w5 d4).1, -(walkDir w5 d4).2)).2) 112 20 0 := by
    simp only [runTicks, scenarioInit]
    rw [h1, h2, h3, h4, h5, h6, h7, h8]
  rw [hrun]
  exact ⟨rfl, rfl, rfl, rfl⟩

/-- Witness for `scenario_resource20_eight_ticks` at a concrete heading and
random-walk stream. -/
theorem scenario_resource20_eight_ticks_witness :
    (runTicks scenarioEnv 5 1 [none, none, none, none, none, none, none, none]
      (scenarioInit (0, 1))).resources_collected = 20 ∧
    (runTicks scenarioEnv 5 1 [none, none, none, none, none, none, none, none]
      (scenarioInit (0, 1))).resource.amount = 0 ∧
    (runTicks scenarioEnv 5 1 [none, none, none, none, none, none, none, none]
      (scenarioInit (0, 1))).resource.is_depleted ∧
    (runTicks scenarioEnv 5 1 [none, none, none, none, none, none, none, none]
      (scenarioInit (0, 1))).removed = false :=
  scenario_resource20_eight_ticks (0, 1) (by decide) none none none none none none none none

end Unicellular
